import Mathlib

/-!
Verification of the 2ndBrain routing core and memory/listing agents.

The Python sources embedded here are `src/brain/agents/base.py`,
`src/brain/agents/memory.py`, `src/brain/agents/vault_query.py`,
`src/brain/listener.py` and `src/brain/app.py`.  The `Vault` storage layer
(`vault.py`) and the `Router` (`agents/router.py`) are imported by those
modules but their sources are not part of the available tree, so the
operations this development needs from them are modelled from the
specification (each such definition says so in its doc comment).
-/

/-- Result returned by an agent after processing (dataclass `AgentResult`
in `base.py`; `filed_path` is kept as an optional string). -/
structure AgentResult where
  response_text : Option String
  filed_path : Option String
  tokens_used : Nat
deriving Repr, DecidableEq

/-- One entry of `thread_history` (a dict with keys `role` and `text`). -/
structure HistMsg where
  role : String
  text : String
deriving Repr, DecidableEq

/-- The `router_data` mapping, restricted to the keys the embedded handlers
read.  A `none` field models an absent key; `Option.getD` models
`dict.get(key, default)`. -/
structure RouterData where
  memory_action : Option String
  directive_text : Option String
  directive_index : Option Int
  search_terms : Option (List String)
  folders : Option (List String)
  question : Option String
deriving Repr, DecidableEq

/-- The `router_data` value with no keys set. -/
def RouterData.empty : RouterData :=
  ⟨none, none, none, none, none, none⟩

/-- Modelled from the spec: the vault state the directive operations act on.
`vault.py` is not in the available sources; the spec describes the directive
store as a single list in append order. -/
structure Vault where
  directives : List String
deriving Repr, DecidableEq

/-- Context passed to an agent (dataclass `MessageContext` in `base.py`).
`attachment_context` entries are kept as opaque strings. -/
structure MessageContext where
  raw_text : String
  attachment_context : List String
  vault : Vault
  router_data : RouterData
  thread_history : List HistMsg
deriving Repr, DecidableEq

/-- Python's `sep.join(parts)`. -/
def pyJoin (sep : String) : List String → String
  | [] => ""
  | a :: rest => rest.foldl (fun acc x => acc ++ sep ++ x) a

/-- Python truthiness of a `str | None` value: `None` and `""` are falsy. -/
def pyTruthyStr : Option String → Bool
  | none => false
  | some s => s ≠ ""

/-- Modelled from the spec: `addDirective(text) -> updated list` — appends
and returns the new complete list (1-based order = append order).  The
updated vault is returned alongside, making the mutation explicit. -/
def Vault.add_directive (v : Vault) (text : String) : List String × Vault :=
  let updated := v.directives ++ [text]
  (updated, ⟨updated⟩)

/-- Modelled from the spec: `removeDirective(index) -> (removedTextOrNone,
updated list)` — 1-based; an out-of-range index returns `(None, unchanged
list)` rather than failing.  The updated vault is returned alongside. -/
def Vault.remove_directive (v : Vault) (index : Int) : (Option String × List String) × Vault :=
  if 1 ≤ index ∧ index ≤ v.directives.length then
    let i := (index - 1).toNat
    let updated := v.directives.eraseIdx i
    ((some (v.directives.getD i ""), updated), ⟨updated⟩)
  else
    ((none, v.directives), v)

/-- Modelled from the spec: `getDirectives() -> list` — read-only snapshot. -/
def Vault.get_directives (v : Vault) : List String :=
  v.directives

namespace MemoryAgent

/-- Embeds `MemoryAgent._add` — adds a new directive and confirms. -/
def _add (context : MessageContext) (directive : String) : AgentResult × Vault :=
  let r := context.vault.add_directive directive
  let directives := r.1
  ({ response_text := some ("✅ Remembered: _" ++ directive ++ "_\n" ++
       "I now have " ++ toString directives.length ++ " directive(s).")
   , filed_path := none, tokens_used := 0 }, r.2)

/-- Embeds `MemoryAgent._remove` — removes a directive by index.  The source tests
the removed value with Python truthiness (`if removed:`), under which both
`None` and the empty string select the warning branch. -/
def _remove (context : MessageContext) (index : Int) : AgentResult × Vault :=
  let r := context.vault.remove_directive index
  let removed := r.1.1
  let directives := r.1.2
  if pyTruthyStr removed then
    ({ response_text := some ("🗑️ Forgot directive #" ++ toString index ++ ": _" ++
         removed.getD "" ++ "_\n" ++ toString directives.length ++ " directive(s) remaining.")
     , filed_path := none, tokens_used := 0 }, r.2)
  else
    ({ response_text := some ("⚠️ No directive #" ++ toString index ++ ". " ++
         "I have " ++ toString directives.length ++ " directive(s). " ++
         "Use 'list directives' to see them.")
     , filed_path := none, tokens_used := 0 }, r.2)

/-- The `lines` list built by `MemoryAgent._list` for a non-empty directive
list: a header, one numbered line per directive (`enumerate(directives, 1)`),
and a count footer. -/
def _list_lines (directives : List String) : List String :=
  "📋 *Current Directives:*" ::
    ((List.enumFrom 1 directives).map (fun p => "  " ++ toString p.1 ++ ". " ++ p.2) ++
      ["\n_" ++ toString directives.length ++ " directive(s). Say 'forget #N' to remove one._"])

/-- Embeds `MemoryAgent._list` — lists all current directives. -/
def _list (context : MessageContext) : AgentResult × Vault :=
  let directives := context.vault.get_directives
  if directives.isEmpty then
    ({ response_text := some ("I don't have any directives yet. " ++
         "Send me 'remember: <rule>' to add one.")
     , filed_path := none, tokens_used := 0 }, context.vault)
  else
    ({ response_text := some (pyJoin "\n" (_list_lines directives))
     , filed_path := none, tokens_used := 0 }, context.vault)

/-- Embeds `MemoryAgent.handle` — dispatches to add, remove, or list based on
`router_data`.  `action` defaults to `"list"`, `directive_text` to `""`;
the add branch additionally requires a truthy (non-empty) `directive_text`
and the remove branch a `directive_index` that `is not None`. -/
def handle (context : MessageContext) : AgentResult × Vault :=
  let action := context.router_data.memory_action.getD "list"
  let directive_text := context.router_data.directive_text.getD ""
  let directive_index := context.router_data.directive_index
  if action = "add" ∧ directive_text ≠ "" then
    _add context directive_text
  else if h : action = "remove" ∧ directive_index.isSome then
    _remove context (directive_index.get h.2)
  else
    _list context

end MemoryAgent

/-- The `lines` list built by `format_thread_history` (`base.py`) for a
non-empty history: a header, one labelled line per message, and a trailing
empty entry so the join ends with a newline. -/
def format_thread_history_lines (thread_history : List HistMsg) : List String :=
  "\n## Conversation History" ::
    (thread_history.map (fun msg =>
        "**" ++ (if msg.role = "user" then "User" else "Assistant") ++ ":** " ++ msg.text) ++
      [""])

/-- Embeds `format_thread_history` (`base.py`) — formats thread history into a
prompt section; returns `""` when there is no history. -/
def format_thread_history (thread_history : List HistMsg) : String :=
  if thread_history.isEmpty then ""
  else pyJoin "\n" (format_thread_history_lines thread_history)

/-- A note returned by the vault search: filename, folder, and frontmatter
metadata (dict modelled as an association list in insertion order). -/
structure NoteMatch where
  filename : String
  folder : String
  frontmatter : List (String × String)
deriving Repr, DecidableEq

/-- The part of the Gemini response the vault-query agent reads. -/
structure GenResponse where
  text : String
  total_token_count : Nat
deriving Repr, DecidableEq

namespace VaultQueryAgent

/-- Embeds `VaultQueryAgent._format_matches` — formats matched notes into a
concise text block. -/
def _format_matches (note_matches : List NoteMatch) : String :=
  pyJoin "\n" (note_matches.map (fun m =>
    let parts := ["- **" ++ m.filename ++ "** (in " ++ m.folder ++ "/)"]
    let meta_items := m.frontmatter.map (fun kv => kv.1 ++ ": " ++ kv.2)
    let parts := if meta_items.isEmpty then parts else parts ++ ["  " ++ pyJoin " | " meta_items]
    pyJoin "\n" parts))

/-- Embeds `VaultQueryAgent._build_prompt` — builds the vault-query prompt.
`datetime.now()` is passed in as `current_time`; `original_text` is accepted
but unused, exactly as in the source. -/
def _build_prompt (current_time question note_summaries original_text : String) : List String :=
  let system :=
    "You are a helpful assistant answering questions about the user's " ++
    "Obsidian vault.  The vault is a personal knowledge base organised " ++
    "into folders: Projects, Actions, Media, Reference, Inbox.\n\n" ++
    "Current time: " ++ current_time ++ "\n\n" ++
    "Below is a list of matching vault notes with their filenames and " ++
    "YAML frontmatter metadata.  Use ONLY this information to answer " ++
    "the user's question.  If the metadata is insufficient, say so.\n\n" ++
    "Respond in concise, conversational plain text suitable for Slack.  " ++
    "Use bullet points or numbered lists where appropriate.  Do NOT " ++
    "return JSON."
  let _ := original_text
  [system,
   "\n## Matching Notes\n" ++ note_summaries,
   "\n## Question\n" ++ question]

/-- The remainder of `VaultQueryAgent.handle` after the vault search (the
empty-match early return, prompt construction, and the Gemini call; the
`except` clause re-raises, so a failing oracle call propagates as
`.error`). -/
def handle_rest (gen : List String → Except String GenResponse)
    (current_time raw_text question : String) (note_matches : List NoteMatch) :
    Except String AgentResult :=
  if note_matches.isEmpty then
    .ok { response_text := some ("I searched the vault but didn't find any matching notes. " ++
            "Try rephrasing your question or being more specific about " ++
            "what you're looking for.")
        , filed_path := none, tokens_used := 0 }
  else
    let note_summaries := _format_matches note_matches
    let prompt := _build_prompt current_time question note_summaries raw_text
    match gen prompt with
    | .error e => .error e
    | .ok response =>
        .ok { response_text := some response.text
            , filed_path := none, tokens_used := response.total_token_count }

/-- Embeds `VaultQueryAgent.handle` — searches the vault, builds a retrieval
prompt, and answers.  `search` stands for `context.vault.search_notes`
(`vault.py` is not in the available sources, so the search itself stays
abstract); `gen` stands for the Gemini generation call. -/
def handle (search : List String → Option (List String) → List NoteMatch)
    (gen : List String → Except String GenResponse)
    (current_time : String) (context : MessageContext) :
    Except String AgentResult :=
  let search_terms := context.router_data.search_terms.getD []
  let folders := context.router_data.folders
  let question := context.router_data.question.getD context.raw_text
  let note_matches := search search_terms folders
  handle_rest gen current_time context.raw_text question note_matches

end VaultQueryAgent

/-- The fields of a Telegram message the embedded part of `handle_message`
reads directly; photos, documents and voice are consumed by the attachment
pipeline, which stays abstract. -/
structure TgMessage where
  text : Option String
  caption : Option String
deriving Repr, DecidableEq

/-- Python's `a or b or ""` on `str | None` values (truthiness-based). -/
def pyOrStr (a b : Option String) : String :=
  if pyTruthyStr a then a.getD ""
  else if pyTruthyStr b then b.getD ""
  else ""

/-- The reply `handle_message` (`listener.py`) sends from its `except`
clause. -/
def brain_error_reply (e : String) : String :=
  "⚠️ Brain Error: " ++ e

/-- The body of the `try` block of `handle_message` (`listener.py`):
attachment processing, voice-text prepending, URL enrichment, context
construction, and routing.  `process_attachments` stands for the awaited
`_process_tg_attachments` call (its failure is a raised exception, hence
`Except`); `fetch_url_titles` never raises in the source (its network
calls sit inside a per-URL `try`/`except`), so it is a total function;
`route` stands for `router.route`, whose result is fallible because the
Router propagates handler exceptions. -/
def listener_pipeline (text : String)
    (process_attachments : Except String (List String × String))
    (fetch_url_titles : String → String)
    (reply_context : List HistMsg) (vault : Vault)
    (route : MessageContext → Except String AgentResult) :
    Except String AgentResult :=
  match process_attachments with
  | .error e => .error e
  | .ok r =>
    let attachment_context := r.1
    let voice_text := r.2
    let text := if voice_text ≠ "" then (voice_text ++ "\n" ++ text).trim else text
    let url_context := fetch_url_titles text
    let enriched_text := if url_context ≠ "" then text ++ "\n" ++ url_context else text
    route { raw_text := enriched_text
          , attachment_context := attachment_context
          , vault := vault
          , router_data := RouterData.empty
          , thread_history := reply_context }

/-- Embeds `handle_message` (`listener.py`) — the main Telegram message handler.
Returns the reply text sent to the user, or `none` when no reply is sent
(absent message, disallowed sender, or a result without response text).
Any exception escaping the `try` block is caught and answered with the
`⚠️ Brain Error` reply. -/
def handle_message (allowed_users : List String) (user_id : String)
    (message : Option TgMessage)
    (process_attachments : Except String (List String × String))
    (fetch_url_titles : String → String)
    (reply_context : List HistMsg) (vault : Vault)
    (route : MessageContext → Except String AgentResult) :
    Option String :=
  match message with
  | none => none
  | some m =>
    if ¬ allowed_users.isEmpty ∧ ¬ allowed_users.contains user_id then none
    else
      let text := pyOrStr m.text m.caption
      match listener_pipeline text process_attachments fetch_url_titles
              reply_context vault route with
      | .error e => some (brain_error_reply e)
      | .ok result =>
        match result.response_text with
        | some t => if t ≠ "" then some t else none
        | none => none

/-- Modelled from the spec: the Routing Decision (§3) — an optional intent
name and an intent-specific parameter map merged into `router_data`. -/
structure RoutingDecision where
  intent : Option String
  parameters : RouterData
deriving Repr, DecidableEq

/-- Modelled from the spec: the Classifier's outcome (§4.2) — either a
decision or an explicit unresolved result (parse failure, oracle error). -/
inductive ClassifyResult where
  | decision (d : RoutingDecision)
  | unresolved
deriving Repr, DecidableEq

/-- Modelled from the spec: merging classifier parameters into
`router_data` (§4.3 step 2) — a parameter that is present overrides the
base value. -/
def RouterData.merge (base params : RouterData) : RouterData :=
  { memory_action := params.memory_action.orElse (fun _ => base.memory_action)
  , directive_text := params.directive_text.orElse (fun _ => base.directive_text)
  , directive_index := params.directive_index.orElse (fun _ => base.directive_index)
  , search_terms := params.search_terms.orElse (fun _ => base.search_terms)
  , folders := params.folders.orElse (fun _ => base.folders)
  , question := params.question.orElse (fun _ => base.question) }

/-- A registered agent as the Router sees it: a handler from context to
result (`BaseAgent.handle`). -/
def Handler : Type :=
  MessageContext → AgentResult

/-- Modelled from the spec: `Router.route` (§4.3; `router.py` is not in
the available sources).  The classifier outcome is passed in as a value.
Alongside the handler result, the trace of invoked agent names is
returned, so that "exactly one handler is invoked" is visible in the
model.  If the decision's intent matches a registered agent, its
parameters are merged into `router_data` and that agent handles the
context; otherwise the configured default agent handles the unchanged
context.  An unregistered default agent (never the case in `app.py`)
yields an empty result and an empty trace. -/
def Router.route (agents : List (String × Handler)) (default_agent : String)
    (classified : ClassifyResult) (context : MessageContext) :
    AgentResult × List String :=
  let fallback :=
    match agents.lookup default_agent with
    | some h => (h context, [default_agent])
    | none => ({ response_text := none, filed_path := none, tokens_used := 0 }, [])
  match classified with
  | .unresolved => fallback
  | .decision d =>
    match d.intent with
    | none => fallback
    | some name =>
      match agents.lookup name with
      | some h =>
          (h { context with router_data := context.router_data.merge d.parameters }, [name])
      | none => fallback


/-- A minimal message context used by concrete witnesses. -/
def mkCtx (vault : Vault) (router_data : RouterData) : MessageContext :=
  { raw_text := "", attachment_context := [], vault := vault
  , router_data := router_data, thread_history := [] }

/-! ### Concrete instances used by witnesses -/

/-- A handler that replies with a fixed text, for concrete routing runs. -/
def demoHandler (reply : String) : Handler :=
  fun _ => { response_text := some reply, filed_path := none, tokens_used := 0 }

/-- A registry of two named handlers, registered as in `app.py`. -/
def demoAgents : List (String × Handler) :=
  [("file", demoHandler "filed"), ("memory", demoHandler "memory")]

/-- A concrete message context for witness runs. -/
def demoCtx : MessageContext :=
  { raw_text := "hello", attachment_context := [], vault := ⟨[]⟩
  , router_data := RouterData.empty, thread_history := [] }

/-- A vault search that finds nothing, for concrete runs. -/
def demoSearch : List String → Option (List String) → List NoteMatch :=
  fun _ _ => []

/-- A generation oracle with a fixed answer, for concrete runs. -/
def demoGen : List String → Except String GenResponse :=
  fun _ => .ok ⟨"answer", 7⟩

/-- The `router_data` of the add scenario of the end-to-end test. -/
def rdAdd (d : String) : RouterData :=
  ⟨some "add", some d, none, none, none, none⟩

/-- The `router_data` of the list scenario of the end-to-end test. -/
def rdList : RouterData :=
  ⟨some "list", none, none, none, none, none⟩

/-! ### Helper lemmas -/

theorem string_foldl_append (l : List String) (a : String) :
    l.foldl (· ++ ·) a = a ++ l.foldl (· ++ ·) "" := by
  induction l generalizing a with
  | nil => simp
  | cons x xs ih =>
    simp only [List.foldl_cons]
    rw [ih (a ++ x), ih ("" ++ x)]
    simp [String.append_assoc]

theorem string_join_cons (x : String) (l : List String) :
    String.join (x :: l) = x ++ String.join l := by
  simp only [String.join, List.foldl_cons]
  rw [string_foldl_append]
  simp

theorem pyJoin_newline_block (a : String) (ms : List String) :
    pyJoin "\n" (a :: (ms ++ [""]))
      = a ++ "\n" ++ String.join (ms.map (fun x => x ++ "\n")) := by
  show (ms ++ [""]).foldl (fun acc x => acc ++ "\n" ++ x) a = _
  induction ms generalizing a with
  | nil => simp [String.join]
  | cons m ms ih =>
    simp only [List.cons_append, List.foldl_cons, List.map_cons]
    rw [ih, string_join_cons]
    simp [String.append_assoc]

/-- Claim C1: for every message context, if the classifier's returned intent
is absent, unknown, or classification fails, `Router.route` invokes the
configured default agent exactly once and no other agent (the invocation
trace is exactly `[default_agent]`), and returns its result — the message is
never dropped without a handler being invoked. -/
theorem router_falls_back_to_default (agents : List (String × Handler))
    (default_agent : String) (dh : Handler) (classified : ClassifyResult)
    (context : MessageContext)
    (hdef : agents.lookup default_agent = some dh)
    (hfall : classified = .unresolved ∨
      ∃ d, classified = .decision d ∧
        (d.intent = none ∨ ∃ n, d.intent = some n ∧ agents.lookup n = none)) :
    Router.route agents default_agent classified context = (dh context, [default_agent]) := by
  rcases hfall with h | ⟨d, hd, h⟩
  · subst h
    simp [Router.route, hdef]
  · subst hd
    rcases h with h | ⟨n, hn, hlook⟩
    · simp [Router.route, h, hdef]
    · simp [Router.route, hn, hlook, hdef]

/-- Witness for C1: a two-agent registry with default `"file"`, and a
decision carrying an unknown intent, falls back to the `"file"` handler. -/
theorem router_falls_back_to_default_witness :
    Router.route demoAgents "file" (.decision ⟨some "unknown_intent", RouterData.empty⟩) demoCtx
      = ({ response_text := some "filed", filed_path := none, tokens_used := 0 }, ["file"]) :=
  router_falls_back_to_default demoAgents "file" (demoHandler "filed") _ demoCtx rfl
    (Or.inr ⟨_, rfl, Or.inr ⟨"unknown_intent", rfl, rfl⟩⟩)

/-- Claim C2: for every context whose `router_data` carries a missing or
unrecognized `memory_action` (anything other than `"add"` with a non-empty
`directive_text`, or `"remove"` with a non-`None` `directive_index`),
`MemoryAgent.handle` performs the list action — it returns the directive
listing result and does not raise. -/
theorem memory_unrecognized_action_lists (context : MessageContext)
    (hadd : ¬ (context.router_data.memory_action = some "add" ∧
               context.router_data.directive_text.getD "" ≠ ""))
    (hrem : ¬ (context.router_data.memory_action = some "remove" ∧
               context.router_data.directive_index ≠ none)) :
    MemoryAgent.handle context = MemoryAgent._list context := by
  have hA : ¬ (context.router_data.memory_action.getD "list" = "add" ∧
      context.router_data.directive_text.getD "" ≠ "") := by
    rcases hm : context.router_data.memory_action with _ | s <;> simp_all
  have hR : ¬ (context.router_data.memory_action.getD "list" = "remove" ∧
      context.router_data.directive_index.isSome) := by
    rcases hm : context.router_data.memory_action with _ | s <;>
      simp_all [Option.isSome_iff_ne_none]
  simp only [MemoryAgent.handle]
  rw [if_neg hA, dif_neg hR]

/-- Witness for C2: a bogus `memory_action` on a one-directive vault yields
exactly the listing result. -/
theorem memory_unrecognized_action_lists_witness :
    MemoryAgent.handle (mkCtx ⟨["only directive"]⟩
        { RouterData.empty with memory_action := some "bogus" })
      = MemoryAgent._list (mkCtx ⟨["only directive"]⟩
        { RouterData.empty with memory_action := some "bogus" }) :=
  memory_unrecognized_action_lists _ (by decide) (by decide)

/-- Claim C10: whenever `MemoryAgent.handle` resolves to the list action
(including every malformed-parameter fallback), the vault directive store is
left unchanged — the handler performs only the read-only `get_directives`
and no mutating vault operation. -/
theorem memory_list_action_preserves_vault (context : MessageContext)
    (hadd : ¬ (context.router_data.memory_action = some "add" ∧
               context.router_data.directive_text.getD "" ≠ ""))
    (hrem : ¬ (context.router_data.memory_action = some "remove" ∧
               context.router_data.directive_index ≠ none)) :
    (MemoryAgent.handle context).2 = context.vault := by
  have hA : ¬ (context.router_data.memory_action.getD "list" = "add" ∧
      context.router_data.directive_text.getD "" ≠ "") := by
    rcases hm : context.router_data.memory_action with _ | s <;> simp_all
  have hR : ¬ (context.router_data.memory_action.getD "list" = "remove" ∧
      context.router_data.directive_index.isSome) := by
    rcases hm : context.router_data.memory_action with _ | s <;>
      simp_all [Option.isSome_iff_ne_none]
  simp only [MemoryAgent.handle]
  rw [if_neg hA, dif_neg hR]
  simp only [MemoryAgent._list]
  split <;> rfl

/-- Witness for C10: the list fallback on a one-directive vault returns the
vault unchanged. -/
theorem memory_list_action_preserves_vault_witness :
    (MemoryAgent.handle (mkCtx ⟨["keep me"]⟩ RouterData.empty)).2 = ⟨["keep me"]⟩ :=
  memory_list_action_preserves_vault _ (by decide) (by decide)

/-- Claim C7: `VaultQueryAgent.handle` tolerates absence of each of its
expected `router_data` keys — a missing `search_terms` defaults to the empty
keyword list, a missing `folders` to no folder restriction (`none`), and a
missing `question` to the context raw text; the vault search is invoked with
exactly these defaulted values and the handler does not fail on their
absence. -/
theorem vault_query_defaults_missing_keys
    (search : List String → Option (List String) → List NoteMatch)
    (gen : List String → Except String GenResponse)
    (current_time : String) (context : MessageContext)
    (hterms : context.router_data.search_terms = none)
    (hfolders : context.router_data.folders = none)
    (hquestion : context.router_data.question = none) :
    context.router_data.search_terms.getD [] = [] ∧
    context.router_data.folders = none ∧
    context.router_data.question.getD context.raw_text = context.raw_text ∧
    VaultQueryAgent.handle search gen current_time context
      = VaultQueryAgent.handle_rest gen current_time context.raw_text context.raw_text
          (search [] none) := by
  refine ⟨by simp [hterms], hfolders, by simp [hquestion], ?_⟩
  simp only [VaultQueryAgent.handle, hterms, hfolders, hquestion, Option.getD_none]

/-- Witness for C7: the defaults at a concrete context with an empty
`router_data`. -/
theorem vault_query_defaults_missing_keys_witness :
    (demoCtx.router_data.search_terms.getD [] = [] ∧
     demoCtx.router_data.folders = none ∧
     demoCtx.router_data.question.getD demoCtx.raw_text = demoCtx.raw_text ∧
     VaultQueryAgent.handle demoSearch demoGen "2026-10-12 00:00" demoCtx
       = VaultQueryAgent.handle_rest demoGen "2026-10-12 00:00" demoCtx.raw_text
           demoCtx.raw_text (demoSearch [] none)) :=
  vault_query_defaults_missing_keys demoSearch demoGen "2026-10-12 00:00" demoCtx rfl rfl rfl

/-- Claim C9: for every context in which the vault search returns an empty
match list, `VaultQueryAgent.handle` returns the fixed "didn't find any
matching notes" reply with `tokens_used = 0`; the conclusion holds for every
generation oracle `gen`, so the generation oracle is never invoked. -/
theorem vault_query_no_matches_fixed_reply
    (search : List String → Option (List String) → List NoteMatch)
    (gen : List String → Except String GenResponse)
    (current_time : String) (context : MessageContext)
    (hempty : search (context.router_data.search_terms.getD [])
        context.router_data.folders = []) :
    VaultQueryAgent.handle search gen current_time context
      = .ok { response_text := some ("I searched the vault but didn't find any matching notes. " ++
                "Try rephrasing your question or being more specific about " ++
                "what you're looking for.")
            , filed_path := none, tokens_used := 0 } := by
  simp only [VaultQueryAgent.handle, hempty, VaultQueryAgent.handle_rest, List.isEmpty_nil,
    if_true]

/-- Witness for C9: the empty-search reply at a concrete context. -/
theorem vault_query_no_matches_fixed_reply_witness :
    VaultQueryAgent.handle demoSearch demoGen "2026-10-12 00:00" demoCtx
      = .ok { response_text := some ("I searched the vault but didn't find any matching notes. " ++
                "Try rephrasing your question or being more specific about " ++
                "what you're looking for.")
            , filed_path := none, tokens_used := 0 } :=
  vault_query_no_matches_fixed_reply demoSearch demoGen "2026-10-12 00:00" demoCtx rfl

/-- Claim C6: for every exception raised during message processing
(attachment handling — which makes the whole pipeline fail, as the first
conjunct records — or routing, including a handler raising inside
`route`), the transport-layer `handle_message` catches it and replies with
the user-visible `⚠️ Brain Error` message containing the error, rather than
letting the exception propagate past the transport boundary. -/
theorem listener_catches_pipeline_errors (allowed_users : List String)
    (user_id : String) (m : TgMessage)
    (process_attachments : Except String (List String × String))
    (fetch_url_titles : String → String)
    (reply_context : List HistMsg) (vault : Vault)
    (route : MessageContext → Except String AgentResult) (e : String)
    (hallow : allowed_users = [] ∨ user_id ∈ allowed_users)
    (herr : listener_pipeline (pyOrStr m.text m.caption) process_attachments
        fetch_url_titles reply_context vault route = .error e) :
    (process_attachments = .error e →
      listener_pipeline (pyOrStr m.text m.caption) process_attachments
        fetch_url_titles reply_context vault route = .error e) ∧
    handle_message allowed_users user_id (some m) process_attachments
        fetch_url_titles reply_context vault route = some (brain_error_reply e) := by
  constructor
  · intro hpa
    simp [listener_pipeline, hpa]
  · have hg : ¬ (¬ allowed_users.isEmpty ∧ ¬ allowed_users.contains user_id) := by
      rcases hallow with h | h <;> simp [h]
    simp only [handle_message]
    rw [if_neg hg, herr]

/-- Witness for C6: a failing attachment pipeline yields the Brain Error
reply. -/
theorem listener_catches_pipeline_errors_witness :
    handle_message [] "42" (some ⟨some "hi", none⟩) (.error "boom")
        (fun _ => "") [] ⟨[]⟩ (fun _ => .ok ⟨none, none, 0⟩)
      = some (brain_error_reply "boom") :=
  (listener_catches_pipeline_errors [] "42" ⟨some "hi", none⟩ (.error "boom")
    (fun _ => "") [] ⟨[]⟩ (fun _ => .ok ⟨none, none, 0⟩) "boom" (Or.inl rfl) rfl).2

/-- Claim C8: `format_thread_history` returns the empty string if and only
if the thread history is empty; for every non-empty history it returns the
block headed `## Conversation History` containing exactly one labelled line
per message, in input order, labelled `**User:**` when the message role is
`"user"` and `**Assistant:**` for any other role. -/
theorem format_thread_history_characterization (thread_history : List HistMsg) :
    (format_thread_history thread_history = "" ↔ thread_history = []) ∧
    (thread_history ≠ [] →
      format_thread_history thread_history
        = "\n## Conversation History\n" ++
          String.join (thread_history.map (fun msg =>
            "**" ++ (if msg.role = "user" then "User" else "Assistant") ++ ":** " ++
              msg.text ++ "\n"))) := by
  have hblock : thread_history ≠ [] →
      format_thread_history thread_history
        = "\n## Conversation History\n" ++
          String.join (thread_history.map (fun msg =>
            "**" ++ (if msg.role = "user" then "User" else "Assistant") ++ ":** " ++
              msg.text ++ "\n")) := by
    intro hne
    unfold format_thread_history format_thread_history_lines
    rw [if_neg (by simpa using hne), pyJoin_newline_block, List.map_map]
    rfl
  refine ⟨⟨?_, ?_⟩, hblock⟩
  · intro hemp
    by_contra hne
    rw [hblock hne] at hemp
    have hlen := congrArg String.length hemp
    rw [String.length_append] at hlen
    have h25 : ("\n## Conversation History\n").length = 25 := rfl
    rw [h25] at hlen
    simp at hlen
  · intro h
    subst h
    rfl

/-- Witness for C8: the empty history gives `""`, and a two-message history
gives the expected block. -/
theorem format_thread_history_characterization_witness :
    (format_thread_history [] = "" ↔ ([] : List HistMsg) = []) ∧
    (format_thread_history [⟨"user", "hi"⟩, ⟨"bot", "yo"⟩]
      = "\n## Conversation History\n" ++
        String.join ([(⟨"user", "hi"⟩ : HistMsg), ⟨"bot", "yo"⟩].map (fun msg =>
          "**" ++ (if msg.role = "user" then "User" else "Assistant") ++ ":** " ++
            msg.text ++ "\n"))) :=
  ⟨(format_thread_history_characterization []).1,
   (format_thread_history_characterization [⟨"user", "hi"⟩, ⟨"bot", "yo"⟩]).2 (by decide)⟩

/-- Claim C3 (amended): for every context with `memory_action = "remove"`
and `directive_index = i`: if the vault `remove_directive i` returns
`(None, l)` or `(Some "", l)`, `MemoryAgent.handle` returns, without
raising, the warning reply stating there is no directive `#i` and reporting
`len l` directives; if it returns `(t, l)` with `t` a non-empty string, it
returns the confirmation reply naming `t` and reporting `len l` remaining.
(The original claim promised the confirmation for every non-`None` `t`; the
source tests `if removed:`, so the empty string takes the warning branch —
see the counterexample.) -/
theorem memory_remove_outcomes (context : MessageContext) (i : Int)
    (ha : context.router_data.memory_action = some "remove")
    (hi : context.router_data.directive_index = some i) :
    ((context.vault.remove_directive i).1.1 = none ∨
        (context.vault.remove_directive i).1.1 = some "" →
      (MemoryAgent.handle context).1.response_text
        = some ("⚠️ No directive #" ++ toString i ++ ". " ++ "I have " ++
            toString (context.vault.remove_directive i).1.2.length ++ " directive(s). " ++
            "Use 'list directives' to see them.")) ∧
    (∀ t, (context.vault.remove_directive i).1.1 = some t → t ≠ "" →
      (MemoryAgent.handle context).1.response_text
        = some ("🗑️ Forgot directive #" ++ toString i ++ ": _" ++ t ++ "_\n" ++
            toString (context.vault.remove_directive i).1.2.length ++
            " directive(s) remaining.")) := by
  have hstep : MemoryAgent.handle context = MemoryAgent._remove context i := by
    simp [MemoryAgent.handle, ha, hi]
  constructor
  · intro h
    rw [hstep]
    simp only [MemoryAgent._remove]
    rcases h with h | h <;> simp [h, pyTruthyStr]
  · intro t ht hne
    rw [hstep]
    simp only [MemoryAgent._remove]
    simp [ht, pyTruthyStr, hne]

/-- Witness for C3: removing the only directive of a one-directive vault
yields the confirmation naming it. -/
theorem memory_remove_outcomes_witness :
    (MemoryAgent.handle (mkCtx ⟨["keep calm"]⟩
        { RouterData.empty with
            memory_action := some "remove"
            directive_index := some 1 })).1.response_text
      = some ("🗑️ Forgot directive #" ++ toString (1 : Int) ++ ": _" ++ "keep calm" ++ "_\n" ++
          toString (((⟨["keep calm"]⟩ : Vault).remove_directive 1).1.2.length) ++
          " directive(s) remaining.") :=
  (memory_remove_outcomes _ 1 rfl rfl).2 "keep calm" (by decide) (by decide)

/-- Counterexample for C3 as stated: on a vault holding the single empty
directive `""`, `remove_directive 1` returns `(Some "", [])` — a non-`None`
removed text — yet `MemoryAgent.handle` replies with the warning "No
directive #1", not with the confirmation the claim requires. -/
theorem memory_remove_counterexample :
    ((⟨[""]⟩ : Vault).remove_directive 1).1.1 = some "" ∧
    (MemoryAgent.handle (mkCtx ⟨[""]⟩
        { RouterData.empty with
            memory_action := some "remove"
            directive_index := some 1 })).1.response_text
      = some "⚠️ No directive #1. I have 0 directive(s). Use 'list directives' to see them." ∧
    (MemoryAgent.handle (mkCtx ⟨[""]⟩
        { RouterData.empty with
            memory_action := some "remove"
            directive_index := some 1 })).1.response_text
      ≠ some "🗑️ Forgot directive #1: __\n0 directive(s) remaining." := by
  decide

/-- Claim C4: starting from an empty directive list, `MemoryAgent.handle`
with `memory_action = "add"` and non-empty `directive_text = d` appends `d`
to the vault directive list and returns a response confirming the addition
and reporting a count of 1; a subsequent handle with the list action returns
exactly that one directive displayed at index 1. -/
theorem memory_add_then_list (d : String) (hd : d ≠ "") :
    (MemoryAgent.handle (mkCtx ⟨[]⟩ (rdAdd d))).2.directives = [d] ∧
    (MemoryAgent.handle (mkCtx ⟨[]⟩ (rdAdd d))).1.response_text
      = some ("✅ Remembered: _" ++ d ++ "_\nI now have 1 directive(s).") ∧
    (MemoryAgent.handle
        (mkCtx (MemoryAgent.handle (mkCtx ⟨[]⟩ (rdAdd d))).2 rdList)).1.response_text
      = some ("📋 *Current Directives:*\n  1. " ++ d ++
          "\n\n_1 directive(s). Say 'forget #N' to remove one._") := by
  have hstep : MemoryAgent.handle (mkCtx ⟨[]⟩ (rdAdd d))
      = MemoryAgent._add (mkCtx ⟨[]⟩ (rdAdd d)) d := by
    simp [MemoryAgent.handle, mkCtx, rdAdd, hd]
  refine ⟨?_, ?_, ?_⟩
  · rw [hstep]
    rfl
  · rw [hstep]
    simp only [MemoryAgent._add, Vault.add_directive, mkCtx, List.nil_append,
      List.length_singleton]
    simp only [String.append_assoc]
    rfl
  · rw [hstep]
    have hv : (MemoryAgent._add (mkCtx ⟨[]⟩ (rdAdd d)) d).2 = ⟨[d]⟩ := rfl
    rw [hv]
    have hlist : MemoryAgent.handle (mkCtx ⟨[d]⟩ rdList)
        = MemoryAgent._list (mkCtx ⟨[d]⟩ rdList) := by
      simp [MemoryAgent.handle, mkCtx, rdList]
    rw [hlist]
    simp only [MemoryAgent._list, MemoryAgent._list_lines, Vault.get_directives, mkCtx,
      pyJoin, List.enumFrom, List.map, List.foldl, List.isEmpty_cons, Bool.false_eq_true,
      if_false, List.length_singleton]
    simp only [String.append_assoc]
    rfl

/-- Witness for C4: the spec scenario with `d = "always use metric
units"`. -/
theorem memory_add_then_list_witness :
    (MemoryAgent.handle (mkCtx ⟨[]⟩ (rdAdd "always use metric units"))).2.directives
        = ["always use metric units"] ∧
    (MemoryAgent.handle (mkCtx ⟨[]⟩ (rdAdd "always use metric units"))).1.response_text
      = some ("✅ Remembered: _" ++ "always use metric units" ++ "_\nI now have 1 directive(s).") ∧
    (MemoryAgent.handle
        (mkCtx (MemoryAgent.handle (mkCtx ⟨[]⟩ (rdAdd "always use metric units"))).2
          rdList)).1.response_text
      = some ("📋 *Current Directives:*\n  1. " ++ "always use metric units" ++
          "\n\n_1 directive(s). Say 'forget #N' to remove one._") :=
  memory_add_then_list "always use metric units" (by decide)

/-- Claim C5: for every non-empty directive list, the list action
enumerates the directives in stored order with consecutive 1-based indices
(line `i + 1` of the reply block shows directive `i` numbered `i + 1`) and
reports the total count in the footer; for an empty list it returns the
fixed "no directives yet" reply instead. -/
theorem memory_list_enumerates (context : MessageContext) (l : List String)
    (hv : context.vault.directives = l) :
    (l = [] →
      (MemoryAgent._list context).1.response_text
        = some ("I don't have any directives yet. " ++
            "Send me 'remember: <rule>' to add one.")) ∧
    (l ≠ [] →
      (MemoryAgent._list context).1.response_text
        = some (pyJoin "\n" (MemoryAgent._list_lines l)) ∧
      (MemoryAgent._list_lines l).length = l.length + 2 ∧
      (MemoryAgent._list_lines l).getD 0 "" = "📋 *Current Directives:*" ∧
      (∀ i, i < l.length →
        (MemoryAgent._list_lines l).getD (i + 1) ""
          = "  " ++ toString (i + 1) ++ ". " ++ l.getD i "") ∧
      (MemoryAgent._list_lines l).getD (l.length + 1) ""
        = "\n_" ++ toString l.length ++ " directive(s). Say 'forget #N' to remove one._") := by
  constructor
  · intro h
    subst h
    simp [MemoryAgent._list, Vault.get_directives, hv]
  · intro hne
    refine ⟨?_, ?_, ?_, ?_, ?_⟩
    · simp [MemoryAgent._list, Vault.get_directives, hv, List.isEmpty_iff, hne]
    · simp [MemoryAgent._list_lines, List.enumFrom_length]
    · rfl
    · intro i hi
      have hlt : i < ((List.enumFrom 1 l).map
          (fun p => "  " ++ toString p.1 ++ ". " ++ p.2)).length := by
        simpa [List.enumFrom_length] using hi
      simp only [MemoryAgent._list_lines, List.getD_cons_succ]
      rw [List.getD_append _ _ _ _ hlt, List.getD_eq_getElem _ _ hlt,
        List.getElem_map, List.getElem_enumFrom, List.getD_eq_getElem _ _ hi,
        Nat.add_comm 1 i]
    · simp only [MemoryAgent._list_lines, List.getD_cons_succ]
      rw [List.getD_append_right _ _ _ _ (by simp [List.enumFrom_length])]
      simp [List.enumFrom_length]

/-- Witness for C5: a two-directive vault lists both entries at indices 1
and 2. -/
theorem memory_list_enumerates_witness :
    (MemoryAgent._list (mkCtx ⟨["alpha", "beta"]⟩ rdList)).1.response_text
        = some (pyJoin "\n" (MemoryAgent._list_lines ["alpha", "beta"])) ∧
    (MemoryAgent._list_lines ["alpha", "beta"]).getD 1 ""
        = "  " ++ toString (0 + 1) ++ ". " ++ (["alpha", "beta"].getD 0 "") ∧
    (MemoryAgent._list_lines ["alpha", "beta"]).getD 2 ""
        = "  " ++ toString (1 + 1) ++ ". " ++ (["alpha", "beta"].getD 1 "") :=
  have h := (memory_list_enumerates (mkCtx ⟨["alpha", "beta"]⟩ rdList)
    ["alpha", "beta"] rfl).2 (by decide)
  ⟨h.1, h.2.2.2.1 0 (by decide), h.2.2.2.1 1 (by decide)⟩
